import Mathlib

/-!
Shallow embedding of `src/main.py` of the sql-gapi repository: a
natural-language-to-SQL pipeline consisting of a schema introspector
(`get_db_schema`), a translator (`get_generated_sql`), an executor
(`execute_query`) and the orchestration branch of `main`.

External effects (the PostgreSQL catalog, the psycopg2 connection, the
pandas query runner and the Gemini model call) are modelled by explicit
behaviour oracles: an inductive type enumerating the points at which the
Python code can observe an exception, carrying the data the external
system would return on success.  Each embedded function additionally
records whether the psycopg2 connection it opens was opened and whether
it was closed before the function returned, mirroring the exact control
flow of the `try`/`except` blocks in the source (which have no
`finally`).
-/

namespace SqlGapi

/-- Python `str.join`: `sep.join(xs)` — empty string on an empty list,
the single element alone, otherwise elements interleaved with `sep`.
Models the `", ".join(column_info)` and `"\n\n".join(schema_info)`
calls in `get_db_schema` (src/main.py lines 66 and 69). -/
def pyJoin (sep : String) : List String → String
  | [] => ""
  | [x] => x
  | x :: y :: xs => x ++ sep ++ pyJoin sep (y :: xs)

/-- Python `s.startswith(p)`: `p` is a prefix of the character sequence
of `s`.  Models `sql_query.startswith("Error")` (src/main.py line 217). -/
def pyStartswith (s p : String) : Bool :=
  p.data.isPrefixOf s.data

/-- Python `str.strip()` with no argument: remove whitespace characters
from both ends of the string.  Models `response.text.strip()`
(src/main.py line 111); whitespace is `Char.isWhitespace` (space, tab,
carriage return, newline). -/
def pyStrip (s : String) : String :=
  ⟨((s.data.dropWhile Char.isWhitespace).reverse.dropWhile Char.isWhitespace).reverse⟩

/-- One row of the `information_schema.tables` / `information_schema.columns`
catalog answer used by `get_db_schema`: a table name together with the
ordered `(column_name, data_type)` pairs the catalog returns for it. -/
structure Table where
  name : String
  columns : List (String × String)
deriving Repr, DecidableEq

/-- The points at which `get_db_schema` (src/main.py lines 40-72) can
observe an exception, or the catalog contents on the fully successful
path.  `connectFails`: `psycopg2.connect` raises before a connection
exists; `tablesQueryFails`: the `information_schema.tables` query raises
after the connection is open; `columnsQueryFails`: one of the per-table
`information_schema.columns` queries raises after the connection is
open; `ok`: every query succeeds and returns the given catalog rows. -/
inductive DbBehavior where
  | connectFails (msg : String)
  | tablesQueryFails (msg : String)
  | columnsQueryFails (msg : String)
  | ok (tables : List Table)
deriving Repr, DecidableEq

/-- Result of one `get_db_schema` invocation: the returned string, and
whether the psycopg2 connection was opened during the call and closed
before the call returned. -/
structure IntrospectRun where
  result : String
  opened : Bool
  closed : Bool
deriving Repr, DecidableEq

/-- The f-string block built for each table (src/main.py lines 65-66):
`f"Table: {table_name}\nColumns: {', '.join(column_info)}"` with
`column_info = [f"{col[0]} ({col[1]})" for col in columns]`. -/
def tableBlock (t : Table) : String :=
  "Table: " ++ t.name ++ "\nColumns: " ++
    pyJoin (", ") (t.columns.map (fun c => c.1 ++ " (" ++ c.2 ++ ")"))

/-- The `"\n\n".join(schema_info)` result of the successful path of
`get_db_schema` (src/main.py lines 54-69): one block per catalog table,
in catalog order, joined by blank lines. -/
def formatSchema (tables : List Table) : String :=
  pyJoin ("\n\n") (tables.map tableBlock)

/-- Embedding of `get_db_schema` (src/main.py lines 40-72).  The whole
body sits inside one `try`: any exception is caught and the literal
string `"Error fetching schema"` is returned.  `conn.close()` (line 68)
is the last statement inside the `try`, so on the exception paths that
occur after `psycopg2.connect` succeeded the connection is opened but
never closed; there is no `finally` block in the source. -/
def get_db_schema : DbBehavior → IntrospectRun
  | .connectFails _ => ⟨"Error fetching schema", false, false⟩
  | .tablesQueryFails _ => ⟨"Error fetching schema", true, false⟩
  | .columnsQueryFails _ => ⟨"Error fetching schema", true, false⟩
  | .ok tables => ⟨formatSchema tables, true, true⟩

/-- Outcome of the single `model.generate_content(prompt)` call in
`get_generated_sql` (src/main.py line 110): either the response text the
model returns, or the message of the exception the call raises. -/
inductive ModelOutcome where
  | ok (text : String)
  | raises (msg : String)
deriving Repr, DecidableEq

/-- Literal text of the prompt f-string (src/main.py lines 89-93) up to
the `{schema}` interpolation. -/
def promptHead : String :=
  "\n        You are a specialized SQL query generator. Convert the following natural language question into a valid PostgreSQL SQL query.\n        \n        Database Schema:\n        "

/-- Literal text of the prompt f-string between the `{schema}` and the
`{natural_language_query}` interpolations (src/main.py lines 93-96). -/
def promptMid : String :=
  "\n        \n        Natural Language Question:\n        "

/-- Literal text of the prompt f-string after the
`{natural_language_query}` interpolation (src/main.py lines 96-108),
ending with the eight spaces before the closing triple quote. -/
def promptTail : String :=
  "\n        \n        Rules:\n        1. Generate ONLY the SQL query without any additional text, explanations, or markdown.\n        2. Ensure the query is valid PostgreSQL syntax.\n        3. Use JOINs where appropriate when querying multiple tables.\n        4. Use column names exactly as they appear in the schema.\n        5. Keep the query efficient and focused on answering the specific question.\n        6. When appropriate, include ORDER BY, GROUP BY, or LIMIT clauses to make the results more useful.\n        7. Do not include any SQL comments in the query.\n        \n        SQL Query:\n        "

/-- The prompt f-string of `get_generated_sql` (src/main.py lines
89-108), with the schema text and the user question interpolated
verbatim between the literal segments. -/
def buildPrompt (schema natural_language_query : String) : String :=
  promptHead ++ schema ++ promptMid ++ natural_language_query ++ promptTail

/-- The prompt `get_generated_sql` sends for a given database behaviour
and question: the schema text is fetched fresh via `get_db_schema` and
interpolated into the template. -/
def promptFor (db : DbBehavior) (natural_language_query : String) : String :=
  buildPrompt (get_db_schema db).result natural_language_query

/-- One `get_generated_sql` invocation: the prompt handed to
`model.generate_content`, and the string the function returns. -/
structure TranslatorRun where
  prompt : String
  result : String
deriving Repr, DecidableEq

/-- Embedding of `get_generated_sql` (src/main.py lines 74-114).  The
schema is re-fetched via `get_db_schema` (which never raises), the
prompt is built, and the model is called once on it.  On success the
response text is returned with surrounding whitespace stripped
(`response.text.strip()`, modelled by `pyStrip`); any exception in
the `try` block is caught and converted to the string
`"Error generating SQL: " ++ msg`. -/
def get_generated_sql_run (db : DbBehavior) (model : String → ModelOutcome)
    (natural_language_query : String) : TranslatorRun :=
  let schema := (get_db_schema db).result
  let prompt := buildPrompt schema natural_language_query
  match model prompt with
  | .ok text => ⟨prompt, pyStrip text⟩
  | .raises msg => ⟨prompt, "Error generating SQL: " ++ msg⟩

/-- The string `get_generated_sql` returns (src/main.py lines 111 and 114). -/
def get_generated_sql (db : DbBehavior) (model : String → ModelOutcome)
    (natural_language_query : String) : String :=
  (get_generated_sql_run db model natural_language_query).result

/-- The tabular result `pd.read_sql_query` produces on success
(src/main.py line 129): ordered column names and ordered rows; rows may
be empty.  Cell contents are modelled as strings. -/
structure DataFrame where
  colNames : List String
  rows : List (List String)
deriving Repr, DecidableEq

/-- The points at which `execute_query` (src/main.py lines 116-134) can
observe an exception for a given SQL string, or the result set on the
successful path.  `connectFails`: `psycopg2.connect` raises before a
connection exists; `readFails`: `pd.read_sql_query` raises (syntax
error, permission error, connectivity loss) after the connection is
open; `ok`: the query runs and yields the given frame. -/
inductive ExecBehavior where
  | connectFails (msg : String)
  | readFails (msg : String)
  | ok (df : DataFrame)
deriving Repr, DecidableEq

/-- Result of one `execute_query` invocation: the returned
`(success, results-or-error)` pair, and whether the psycopg2 connection
was opened during the call and closed before the call returned. -/
structure ExecuteRun where
  success : Bool
  output : DataFrame ⊕ String
  opened : Bool
  closed : Bool
deriving Repr, DecidableEq

/-- Embedding of `execute_query` (src/main.py lines 116-134).  The whole
body sits inside one `try`: any exception is caught and
`(False, "Error executing query: " ++ msg)` is returned.  `conn.close()`
(line 130) is inside the `try` after `pd.read_sql_query`, so when the
read raises, the connection is opened but never closed; there is no
`finally` block in the source. -/
def execute_query (db : String → ExecBehavior) (sql_query : String) : ExecuteRun :=
  match db sql_query with
  | .connectFails msg => ⟨false, .inr ("Error executing query: " ++ msg), false, false⟩
  | .readFails msg => ⟨false, .inr ("Error executing query: " ++ msg), true, false⟩
  | .ok df => ⟨true, .inl df, true, true⟩

/-- What the orchestration branch of `main` (src/main.py lines 213-226)
does with the translator's string: either runs the executor on it, or
shows it in an error banner without ever invoking the executor. -/
inductive StepOutcome where
  | executed (run : ExecuteRun)
  | errorBanner (msg : String)
deriving Repr, DecidableEq

/-- Embedding of the branch on the generated string in `main`
(src/main.py lines 217-226): `if not sql_query.startswith("Error"):`
run `execute_query(sql_query)` and display its result, `else:` display
`sql_query` with `st.error` and never call the executor. -/
def orchestrationStep (db : String → ExecBehavior) (sql_query : String) : StepOutcome :=
  if !(pyStartswith sql_query ("Error")) then
    .executed (execute_query db sql_query)
  else
    .errorBanner sql_query

/-- The full per-request pipeline of `main` (src/main.py lines 213-226):
generate the SQL from the question, then branch on the error-string
convention. -/
def mainPipeline (db : DbBehavior) (model : String → ModelOutcome)
    (exec : String → ExecBehavior) (question : String) : StepOutcome :=
  orchestrationStep exec (get_generated_sql db model question)

/-- Two successive invocations of the introspector against the same
database behaviour, as performed by `main` (once for the sidebar schema
viewer, once inside the translator's call chain): the pair of the two
returned strings.  `get_db_schema` reads no mutable program state
(`DB_PARAMS` is never written after start-up), so two calls differ only
through the external database behaviour, held fixed here. -/
def introspectTwice (db : DbBehavior) : String × String :=
  ((get_db_schema db).result, (get_db_schema db).result)

/-- Helper: a string is always a `pyStartswith`-prefix of itself
followed by anything, mirroring that Python `(p + s).startswith(p)` is
`True`. -/
theorem pyStartswith_append_self (p s : String) : pyStartswith (p ++ s) p = true := by
  simp [pyStartswith]

/-- Helper: the translator's failure string carries the `"Error"` prefix
the orchestration branch tests for. -/
theorem genFail_startswith (msg : String) :
    pyStartswith ("Error generating SQL: " ++ msg) ("Error") = true :=
  pyStartswith_append_self ("Error") (" generating SQL: " ++ msg)

/-- C1: for every model-call failure, `get_generated_sql` returns the
string `"Error generating SQL: <message>"` rather than raising, and for
every returned string carrying the `"Error"` prefix the orchestration
branch of `main` skips the executor entirely and displays the string as
an error. -/
theorem c1_model_failure_error_string_and_executor_skipped
    (db : DbBehavior) (model : String → ModelOutcome) (exec : String → ExecBehavior)
    (q msg : String) (hm : model (promptFor db q) = ModelOutcome.raises msg) :
    get_generated_sql db model q = "Error generating SQL: " ++ msg ∧
    (∀ s : String, pyStartswith s ("Error") = true →
      orchestrationStep exec s = StepOutcome.errorBanner s) ∧
    mainPipeline db model exec q = StepOutcome.errorBanner ("Error generating SQL: " ++ msg) := by
  simp only [promptFor] at hm
  have h1 : get_generated_sql db model q = "Error generating SQL: " ++ msg := by
    simp [get_generated_sql, get_generated_sql_run, hm]
  have h2 : ∀ s : String, pyStartswith s ("Error") = true →
      orchestrationStep exec s = StepOutcome.errorBanner s := by
    intro s hs
    simp [orchestrationStep, hs]
  refine ⟨h1, h2, ?_⟩
  have h3 := h2 _ (genFail_startswith msg)
  simpa [mainPipeline, h1] using h3

/-- Witness for C1 at a concrete provider failure: the model call raises
with message `"quota exceeded"`, the pipeline shows the error banner and
never reaches the executor. -/
theorem c1_witness :
    ((fun _ => ModelOutcome.raises ("quota exceeded"))
        (promptFor (DbBehavior.ok []) ("list users")) =
      ModelOutcome.raises ("quota exceeded")) ∧
    mainPipeline (DbBehavior.ok []) (fun _ => ModelOutcome.raises ("quota exceeded"))
        (fun _ => ExecBehavior.ok ⟨[], []⟩) ("list users") =
      StepOutcome.errorBanner ("Error generating SQL: quota exceeded") := by
  refine ⟨rfl, ?_⟩
  have h := (c1_model_failure_error_string_and_executor_skipped (DbBehavior.ok [])
      (fun _ => ModelOutcome.raises ("quota exceeded")) (fun _ => ExecBehavior.ok ⟨[], []⟩)
      ("list users") ("quota exceeded") rfl).2.2
  have he : ("Error generating SQL: " ++ "quota exceeded" : String) =
      "Error generating SQL: quota exceeded" := by decide
  rw [he] at h
  exact h

/-- C2: for a catalog reporting the table list `ts`, `get_db_schema`
returns exactly `ts.length` blocks joined by blank lines, the block of
each table being `"Table: <name>\nColumns: <col> (<type>), ..."` with
every reported column in the catalog's returned order. -/
theorem c2_schema_text_is_one_block_per_table (ts : List Table) :
    ∃ blocks : List String,
      (get_db_schema (DbBehavior.ok ts)).result = pyJoin ("\n\n") blocks ∧
      blocks.length = ts.length ∧
      blocks = ts.map (fun t => "Table: " ++ t.name ++ "\nColumns: " ++
        pyJoin (", ") (t.columns.map (fun c => c.1 ++ " (" ++ c.2 ++ ")"))) :=
  ⟨ts.map tableBlock, rfl, by simp, rfl⟩

/-- C3: `execute_query` is total over every behaviour of the database
for every SQL string: any error (at connect time or while running the
query) is returned as `(False, "Error executing query: <message>")`,
and success is returned as `(True, frame)` with the frame passed through
unchanged, the zero-row frame included. -/
theorem c3_executor_never_raises (dbexec : String → ExecBehavior) (sql : String) :
    (∀ m, dbexec sql = ExecBehavior.connectFails m →
      (execute_query dbexec sql).success = false ∧
      (execute_query dbexec sql).output = Sum.inr ("Error executing query: " ++ m)) ∧
    (∀ m, dbexec sql = ExecBehavior.readFails m →
      (execute_query dbexec sql).success = false ∧
      (execute_query dbexec sql).output = Sum.inr ("Error executing query: " ++ m)) ∧
    (∀ df, dbexec sql = ExecBehavior.ok df →
      (execute_query dbexec sql).success = true ∧
      (execute_query dbexec sql).output = Sum.inl df) := by
  refine ⟨?_, ?_, ?_⟩ <;> intro x h <;> simp [execute_query, h]

/-- Witness for C3 at a concrete zero-row success: a reachable database
returning an empty result set for the statement yields `(True, frame)`. -/
theorem c3_witness :
    ((fun _ => ExecBehavior.ok ⟨["id"], []⟩) ("SELECT id FROM t") =
      ExecBehavior.ok ⟨["id"], []⟩) ∧
    (execute_query (fun _ => ExecBehavior.ok ⟨["id"], []⟩) ("SELECT id FROM t")).success = true ∧
    (execute_query (fun _ => ExecBehavior.ok ⟨["id"], []⟩) ("SELECT id FROM t")).output =
      Sum.inl ⟨["id"], []⟩ :=
  ⟨rfl, (c3_executor_never_raises (fun _ => ExecBehavior.ok ⟨["id"], []⟩)
    ("SELECT id FROM t")).2.2 ⟨["id"], []⟩ rfl⟩

/-- C4: on every connectivity or catalog-query error — the connection
failing to establish, the tables query raising, or a columns query
raising — `get_db_schema` returns exactly the literal sentinel
`"Error fetching schema"` (and, being a total function, never raises). -/
theorem c4_introspector_error_sentinel (m : String) :
    (get_db_schema (DbBehavior.connectFails m)).result = "Error fetching schema" ∧
    (get_db_schema (DbBehavior.tablesQueryFails m)).result = "Error fetching schema" ∧
    (get_db_schema (DbBehavior.columnsQueryFails m)).result = "Error fetching schema" :=
  ⟨rfl, rfl, rfl⟩

/-- C5: on every successful model call, `get_generated_sql` hands the
model a single prompt embedding the freshly fetched schema text and the
question verbatim, and returns the model's response text stripped of
surrounding whitespace with no other modification. -/
theorem c5_translator_prompt_verbatim_and_stripped_response
    (db : DbBehavior) (model : String → ModelOutcome) (q text : String)
    (hm : model (promptFor db q) = ModelOutcome.ok text) :
    (get_generated_sql_run db model q).prompt = promptFor db q ∧
    (∃ a b : String, promptFor db q = a ++ (get_db_schema db).result ++ b) ∧
    (∃ a b : String, promptFor db q = a ++ q ++ b) ∧
    get_generated_sql db model q = pyStrip text := by
  refine ⟨?_, ?_, ?_, ?_⟩
  · simp only [get_generated_sql_run, promptFor]
    cases model (buildPrompt (get_db_schema db).result q) <;> rfl
  · exact ⟨promptHead, promptMid ++ q ++ promptTail,
      by simp [promptFor, buildPrompt, String.append_assoc]⟩
  · exact ⟨promptHead ++ (get_db_schema db).result ++ promptMid, promptTail,
      by simp [promptFor, buildPrompt, String.append_assoc]⟩
  · simp only [promptFor] at hm
    simp [get_generated_sql, get_generated_sql_run, hm]

/-- Witness for C5 at a concrete successful call: the model answers
`"  SELECT 1  "` and the translator returns `"SELECT 1"`. -/
theorem c5_witness :
    ((fun _ => ModelOutcome.ok ("  SELECT 1  "))
        (promptFor (DbBehavior.ok []) ("hi")) = ModelOutcome.ok ("  SELECT 1  ")) ∧
    get_generated_sql (DbBehavior.ok []) (fun _ => ModelOutcome.ok ("  SELECT 1  "))
      ("hi") = "SELECT 1" := by
  refine ⟨rfl, ?_⟩
  have h := (c5_translator_prompt_verbatim_and_stripped_response (DbBehavior.ok [])
      (fun _ => ModelOutcome.ok ("  SELECT 1  ")) ("hi") ("  SELECT 1  ") rfl).2.2.2
  exact h.trans (by decide)

/-- C6 counterexample: when the catalog tables query raises after
`psycopg2.connect` succeeded, the invocation opens a connection but
returns without closing it — `conn.close()` sits inside the `try` block
with no `finally`, so the error path skips it.  This refutes the claim
that every invocation, including those ending in an error, closes the
connection it opened before returning. -/
theorem c6_counterexample :
    (get_db_schema (DbBehavior.tablesQueryFails ("connection reset"))).opened = true ∧
    (get_db_schema (DbBehavior.tablesQueryFails ("connection reset"))).closed = false :=
  ⟨rfl, rfl⟩

/-- C6 amended: on invocations of `get_db_schema` and `execute_query`
that complete without an exception, the connection the invocation opened
is closed before the function returns; when the connection cannot even
be established no connection is opened; but on every error raised after
the connection is open (the tables query, a columns query, or
`pd.read_sql_query` raising) the function returns without closing the
connection it opened. -/
theorem c6_amended_connection_closed_only_without_error
    (ts : List Table) (df : DataFrame) (m sql : String) :
    ((get_db_schema (DbBehavior.ok ts)).opened = true ∧
      (get_db_schema (DbBehavior.ok ts)).closed = true) ∧
    ((execute_query (fun _ => ExecBehavior.ok df) sql).opened = true ∧
      (execute_query (fun _ => ExecBehavior.ok df) sql).closed = true) ∧
    ((get_db_schema (DbBehavior.connectFails m)).opened = false) ∧
    ((get_db_schema (DbBehavior.tablesQueryFails m)).opened = true ∧
      (get_db_schema (DbBehavior.tablesQueryFails m)).closed = false) ∧
    ((get_db_schema (DbBehavior.columnsQueryFails m)).opened = true ∧
      (get_db_schema (DbBehavior.columnsQueryFails m)).closed = false) ∧
    ((execute_query (fun _ => ExecBehavior.connectFails m) sql).opened = false) ∧
    ((execute_query (fun _ => ExecBehavior.readFails m) sql).opened = true ∧
      (execute_query (fun _ => ExecBehavior.readFails m) sql).closed = false) :=
  ⟨⟨rfl, rfl⟩, ⟨rfl, rfl⟩, rfl, ⟨rfl, rfl⟩, ⟨rfl, rfl⟩, rfl, ⟨rfl, rfl⟩⟩

/-- C7: when the schema fetch fails, `get_generated_sql` does not fail:
the prompt it hands the model embeds the sentinel
`"Error fetching schema"` in the schema slot, the model is still called
on that prompt, and — when that call succeeds with a response whose
stripped text does not itself carry the `"Error"` prefix — the
translator's result does not carry the `"Error"` prefix either. -/
theorem c7_sentinel_schema_still_calls_model
    (db : DbBehavior) (model : String → ModelOutcome) (q text : String)
    (hs : (get_db_schema db).result = "Error fetching schema")
    (hm : model (promptFor db q) = ModelOutcome.ok text) :
    (get_generated_sql_run db model q).prompt = buildPrompt ("Error fetching schema") q ∧
    get_generated_sql db model q = pyStrip text ∧
    (pyStartswith (pyStrip text) ("Error") = false →
      pyStartswith (get_generated_sql db model q) ("Error") = false) := by
  simp only [promptFor] at hm
  have h1 : get_generated_sql db model q = pyStrip text := by
    simp [get_generated_sql, get_generated_sql_run, hm]
  refine ⟨?_, h1, ?_⟩
  · simp only [get_generated_sql_run]
    rw [hs] at hm ⊢
    simp [hm]
  · intro hp
    rw [h1]
    exact hp

/-- Witness for C7 at a concrete failed schema fetch: the connection
cannot be established, the model still answers `"SELECT 1"`, and the
translator's result is not `"Error"`-prefixed. -/
theorem c7_witness :
    ((get_db_schema (DbBehavior.connectFails ("no route to host"))).result =
      "Error fetching schema") ∧
    ((fun _ => ModelOutcome.ok ("SELECT 1"))
        (promptFor (DbBehavior.connectFails ("no route to host")) ("hi")) =
      ModelOutcome.ok ("SELECT 1")) ∧
    pyStartswith (get_generated_sql (DbBehavior.connectFails ("no route to host"))
      (fun _ => ModelOutcome.ok ("SELECT 1")) ("hi")) ("Error") = false := by
  refine ⟨rfl, rfl, ?_⟩
  exact (c7_sentinel_schema_still_calls_model (DbBehavior.connectFails ("no route to host"))
    (fun _ => ModelOutcome.ok ("SELECT 1")) ("hi") ("SELECT 1") rfl rfl).2.2 (by decide)

/-- C8: two successive invocations of `get_db_schema` against a fixed
database behaviour (unchanged catalog contents and row order) return
identical text output — the function reads no mutable program state, so
its output is a function of the catalog answer alone. -/
theorem c8_introspector_idempotent (db : DbBehavior) :
    (introspectTwice db).1 = (introspectTwice db).2 :=
  rfl

/-- C9: a successful model call whose stripped response happens to carry
the `"Error"` prefix is treated by the orchestration branch exactly like
a translation failure: the text is displayed in the error banner and the
executor is never invoked, although no failure occurred. -/
theorem c9_error_like_model_output_not_executed
    (db : DbBehavior) (model : String → ModelOutcome) (exec : String → ExecBehavior)
    (q text : String)
    (hm : model (promptFor db q) = ModelOutcome.ok text)
    (he : pyStartswith (pyStrip text) ("Error") = true) :
    get_generated_sql db model q = pyStrip text ∧
    mainPipeline db model exec q = StepOutcome.errorBanner (pyStrip text) := by
  simp only [promptFor] at hm
  have h1 : get_generated_sql db model q = pyStrip text := by
    simp [get_generated_sql, get_generated_sql_run, hm]
  refine ⟨h1, ?_⟩
  simp [mainPipeline, orchestrationStep, h1, he]

/-- Witness for C9 at a concrete model output `"Error 1064: bad syntax"`
returned by a successful call: the pipeline shows the error banner. -/
theorem c9_witness :
    ((fun _ => ModelOutcome.ok ("Error 1064: bad syntax"))
        (promptFor (DbBehavior.ok []) ("hi")) =
      ModelOutcome.ok ("Error 1064: bad syntax")) ∧
    pyStartswith (pyStrip ("Error 1064: bad syntax")) ("Error") = true ∧
    mainPipeline (DbBehavior.ok []) (fun _ => ModelOutcome.ok ("Error 1064: bad syntax"))
        (fun _ => ExecBehavior.ok ⟨[], []⟩) ("hi") =
      StepOutcome.errorBanner (pyStrip ("Error 1064: bad syntax")) := by
  refine ⟨rfl, by decide, ?_⟩
  exact (c9_error_like_model_output_not_executed (DbBehavior.ok [])
    (fun _ => ModelOutcome.ok ("Error 1064: bad syntax")) (fun _ => ExecBehavior.ok ⟨[], []⟩)
    ("hi") ("Error 1064: bad syntax") rfl (by decide)).2

/-- C10: a catalog reporting zero public tables makes `get_db_schema`
succeed with the empty string; the empty string differs from the error
sentinel (their `BEq` test is `false`), which the connection-failure
path returns. -/
theorem c10_empty_catalog_empty_string (m : String) :
    (get_db_schema (DbBehavior.ok [])).result = "" ∧
    (((get_db_schema (DbBehavior.ok [])).result == "Error fetching schema") = false) ∧
    (get_db_schema (DbBehavior.connectFails m)).result = "Error fetching schema" :=
  ⟨rfl, by decide, rfl⟩

end SqlGapi
